import Mathlib

/-!
Shallow embedding of `src/game-components.js` (the "Pet-a-Cat" component
library): a base DOM-bound component, a text component, a scoreboard and a
countdown timer driven by `setInterval`.

The host UI tree (DOM) is modelled as an association list from element
identifiers to their current `innerText`.  `document.getElementById` is
lookup of the first entry with a matching identifier; assigning `innerText`
replaces that entry's text.  A thrown JS `Error` is modelled as an
`Except.error` carrying the error's `name` and `message`.

The browser timer facility is modelled explicitly: `setInterval` allocates a
fresh positive numeric handle and marks it active; `clearInterval` removes a
handle from the active set (a no-op on unknown handles, as in the browser);
a "tick" event for a handle runs the interval's callback only while that
handle is active.  The countdown's completion callback is identified by a
natural number; invocations are logged in order so that "fires exactly
once" is the statement that the log equals a one-element list.
-/

/-- The host UI tree: identifiers paired with the element's `innerText`. -/
abbrev Dom : Type := List (String × String)

/-- The JS `document.getElementById`: text of the first element whose id
matches, or `none` when no such element exists. -/
def getElementById : Dom → String → Option String
  | [], _ => none
  | (k, v) :: rest, id => if k = id then some v else getElementById rest id

/-- Assigning `element.innerText = value` for the element bound to `id`:
replaces the text of the first matching entry, leaving the rest alone. -/
def setInnerText : Dom → String → String → Dom
  | [], _, _ => []
  | (k, v) :: rest, id, value =>
      if k = id then (k, value) :: rest else (k, v) :: setInnerText rest id value

/-- A thrown JS `Error`, reduced to its `name` and `message` fields. -/
structure JsError where
  name : String
  message : String
deriving DecidableEq

deriving instance DecidableEq for Except

/-- The error thrown by the `GameComponent` constructor when
`document.getElementById` returns `null`. -/
def htmlElementNotFound (id : String) : JsError :=
  ⟨"HtmlElementNotFound", "No element exists with id=\"" ++ id ++ "\"."⟩

/-- A constructed `GameComponent`: it privately holds the id and the element
reference; since ids are the keys of the DOM model, retaining the id
suffices. -/
structure GameComponent where
  id : String
deriving DecidableEq

/-- The `GameComponent` constructor: looks the element up, throws
`HtmlElementNotFound` when it is absent, otherwise succeeds with no side
effect on the DOM. -/
def GameComponent.create (dom : Dom) (idValue : String) :
    Except JsError GameComponent :=
  match getElementById dom idValue with
  | none => Except.error (htmlElementNotFound idValue)
  | some _ => Except.ok ⟨idValue⟩

/-- A constructed `TextComponent` (adds no state over `GameComponent`). -/
structure TextComponent where
  id : String
deriving DecidableEq

/-- The `TextComponent` constructor: delegates to `GameComponent.call`. -/
def TextComponent.create (dom : Dom) (idValue : String) :
    Except JsError TextComponent :=
  match GameComponent.create dom idValue with
  | Except.error e => Except.error e
  | Except.ok c => Except.ok ⟨c.id⟩

/-- `TextComponent.prototype.setText`: overwrites the bound element's
`innerText`. -/
def TextComponent.setText (c : TextComponent) (dom : Dom) (value : String) :
    Dom :=
  setInnerText dom c.id value

/-- A constructed `Scoreboard`: private `score`, the captured
`initialValue`, and the inherited element binding. -/
structure Scoreboard where
  id : String
  initialValue : Int
  score : Int
deriving DecidableEq

/-- The `Scoreboard` constructor: `TextComponent.call` (which may throw
before any display write), then the initial `updateDisplay()` rendering
`Score: ${score}`. -/
def Scoreboard.create (dom : Dom) (idValue : String) (initialValue : Int) :
    Except JsError (Scoreboard × Dom) :=
  match TextComponent.create dom idValue with
  | Except.error e => Except.error e
  | Except.ok _ =>
      Except.ok (⟨idValue, initialValue, initialValue⟩,
        setInnerText dom idValue ("Score: " ++ toString initialValue))

/-- `Scoreboard`'s `update(value)`: `score += value` then
`updateDisplay()`. -/
def Scoreboard.update (sb : Scoreboard) (dom : Dom) (value : Int) :
    Scoreboard × Dom :=
  (⟨sb.id, sb.initialValue, sb.score + value⟩,
    setInnerText dom sb.id ("Score: " ++ toString (sb.score + value)))

/-- `Scoreboard`'s `reset()`: `score = initialValue` then
`updateDisplay()`. -/
def Scoreboard.resetOp (sb : Scoreboard) (dom : Dom) : Scoreboard × Dom :=
  (⟨sb.id, sb.initialValue, sb.initialValue⟩,
    setInnerText dom sb.id ("Score: " ++ toString sb.initialValue))

/-- Applies `update` for each delta of a list, left to right, threading the
score and the DOM. -/
def applyUpdates : Scoreboard × Dom → List Int → Scoreboard × Dom
  | p, [] => p
  | (sb, dom), d :: ds => applyUpdates (sb.update dom d) ds

/-- The closure state of one `Timer` instance: the private `initialTime`,
`timeRemaining` and `intervalId` variables and the public
`countdownTimerEndCallback` field.  `intervalId = none` models the
`undefined` it holds before the first `startCountdown()`; once assigned it
keeps the (positive, hence truthy) handle even after the interval was
cleared, exactly as in the source.  A callback value is identified by a
natural number; `none` models `null` (and `undefined`). -/
structure TimerCore where
  id : String
  initialTime : Int
  timeRemaining : Int
  intervalId : Option Nat
  callback : Option Nat
deriving DecidableEq

/-- One `Timer` instance together with its runtime context: the DOM, the
set of active interval handles, the next handle `setInterval` will hand
out (handles start at 1, so a stored handle is always truthy), and the
ordered log of completion-callback invocations. -/
structure TimerRt where
  timer : TimerCore
  dom : Dom
  active : List Nat
  nextHandle : Nat
  fired : List Nat
deriving DecidableEq

/-- The browser's `clearInterval`: deactivates the handle; silently ignores
handles that are not active. -/
def clearIntervalOp (active : List Nat) (h : Nat) : List Nat :=
  active.filter (fun a => a ≠ h)

/-- The `Timer` constructor: `TextComponent.call` (which may throw first),
private state initialisation, `countdownTimerEndCallback = null`, then the
initial `updateDisplay()` rendering `Time: ${timeRemaining}`. -/
def Timer.create (dom : Dom) (idValue : String) (initialTimeValue : Int) :
    Except JsError TimerRt :=
  match TextComponent.create dom idValue with
  | Except.error e => Except.error e
  | Except.ok _ =>
      Except.ok ⟨⟨idValue, initialTimeValue, initialTimeValue, none, none⟩,
        setInnerText dom idValue ("Time: " ++ toString initialTimeValue),
        [], 1, []⟩

/-- `Timer`'s `reset()`: `if (intervalId) clearInterval(intervalId)` (the
stored handle, when assigned, is positive and hence truthy), then restore
`timeRemaining = initialTime` and `updateDisplay()`.  The callback field is
not touched. -/
def TimerRt.reset (s : TimerRt) : TimerRt :=
  let active :=
    match s.timer.intervalId with
    | none => s.active
    | some h => clearIntervalOp s.active h
  ⟨⟨s.timer.id, s.timer.initialTime, s.timer.initialTime,
      s.timer.intervalId, s.timer.callback⟩,
    setInnerText s.dom s.timer.id
      ("Time: " ++ toString s.timer.initialTime),
    active, s.nextHandle, s.fired⟩

/-- `Timer`'s `startCountdown()`: `intervalId = setInterval(tick, 1000)` —
allocates a fresh handle, overwrites `intervalId`, and activates the new
interval.  Nothing guards against an interval already running. -/
def TimerRt.startCountdown (s : TimerRt) : TimerRt :=
  ⟨⟨s.timer.id, s.timer.initialTime, s.timer.timeRemaining,
      some s.nextHandle, s.timer.callback⟩,
    s.dom, s.active ++ [s.nextHandle], s.nextHandle + 1, s.fired⟩

/-- Assignment to the public `countdownTimerEndCallback` field. -/
def TimerRt.setCallback (s : TimerRt) (c : Option Nat) : TimerRt :=
  ⟨⟨s.timer.id, s.timer.initialTime, s.timer.timeRemaining,
      s.timer.intervalId, c⟩,
    s.dom, s.active, s.nextHandle, s.fired⟩

/-- The singleton invocation log a completion produces: `[c]` when the
callback field holds `c`, nothing when it is `null`. -/
def cbLog : Option Nat → List Nat
  | none => []
  | some c => [c]

/-- One tick event of interval `h`: runs the body of the closure passed to
`setInterval` — but only while `h` is still active (a cleared interval
never fires).  The body: `timeRemaining -= 1`; `updateDisplay()`; if
`timeRemaining === 0` then `clearInterval(intervalId)` (the field's
current value, shared by every interval this instance created) and, when
`countdownTimerEndCallback != null`, invoke it. -/
def TimerRt.tick (s : TimerRt) (h : Nat) : TimerRt :=
  if h ∈ s.active then
    let t := s.timer.timeRemaining - 1
    let dom := setInnerText s.dom s.timer.id ("Time: " ++ toString t)
    if t = 0 then
      let active :=
        match s.timer.intervalId with
        | none => s.active
        | some hid => clearIntervalOp s.active hid
      ⟨⟨s.timer.id, s.timer.initialTime, t, s.timer.intervalId,
          s.timer.callback⟩,
        dom, active, s.nextHandle, s.fired ++ cbLog s.timer.callback⟩
    else
      ⟨⟨s.timer.id, s.timer.initialTime, t, s.timer.intervalId,
          s.timer.callback⟩,
        dom, s.active, s.nextHandle, s.fired⟩
  else s

/-- `j` consecutive tick events of interval `h`. -/
def ticksN (s : TimerRt) (h : Nat) : Nat → TimerRt
  | 0 => s
  | j + 1 => (ticksN s h j).tick h

/-- The events a host application can direct at one `Timer` instance. -/
inductive TimerOp where
  | start : TimerOp
  | resetEvt : TimerOp
  | tickEvt : Nat → TimerOp
  | setCb : Option Nat → TimerOp
deriving DecidableEq

/-- One event step. -/
def TimerRt.step (s : TimerRt) : TimerOp → TimerRt
  | TimerOp.start => s.startCountdown
  | TimerOp.resetEvt => s.reset
  | TimerOp.tickEvt h => s.tick h
  | TimerOp.setCb c => s.setCallback c

/-- Runs a sequence of events. -/
def TimerRt.run (s : TimerRt) : List TimerOp → TimerRt
  | [] => s
  | op :: ops => (s.step op).run ops

/-- Holds when, along the event sequence, `startCountdown()` is only ever
invoked while no interval is active (the discipline the spec recommends
for the ambiguous double-start case). -/
def TimerRt.goodTrace (s : TimerRt) : List TimerOp → Bool
  | [] => true
  | TimerOp.start :: ops =>
      s.active.isEmpty && (s.step TimerOp.start).goodTrace ops
  | op :: ops => (s.step op).goodTrace ops

/-- A concrete two-element host document used for witnesses. -/
def demoDom : Dom := [("timer", ""), ("score", "")]

/-- The timer `Timer.create demoDom "timer" 3` constructs. -/
def demoTimer3 : TimerRt :=
  ⟨⟨"timer", 3, 3, none, none⟩, [("timer", "Time: 3"), ("score", "")],
    [], 1, []⟩

/-- The timer `Timer.create demoDom "timer" 0` constructs. -/
def demoTimer0 : TimerRt :=
  ⟨⟨"timer", 0, 0, none, none⟩, [("timer", "Time: 0"), ("score", "")],
    [], 1, []⟩

/-- `startCountdown()` on a timer whose callback field was first set to
`cb`. -/
def startedOf (t : TimerRt) (cb : Nat) : TimerRt :=
  (t.setCallback (some cb)).startCountdown

/-! ### Helper lemmas about the DOM model -/

lemma setInnerText_setInnerText (d : Dom) (id v w : String) :
    setInnerText (setInnerText d id v) id w = setInnerText d id w := by
  induction d with
  | nil => rfl
  | cons p rest ih =>
    obtain ⟨k, x⟩ := p
    by_cases hk : k = id
    · simp [setInnerText, hk]
    · simp [setInnerText, hk, ih]

lemma getElementById_setInnerText (d : Dom) (id v : String)
    (hd : (getElementById d id).isSome) :
    getElementById (setInnerText d id v) id = some v := by
  induction d with
  | nil => simp [getElementById] at hd
  | cons p rest ih =>
    obtain ⟨k, x⟩ := p
    by_cases hk : k = id
    · simp [getElementById, setInnerText, hk]
    · simp [getElementById, setInnerText, hk] at hd ⊢
      exact ih hd

lemma clearIntervalOp_self (h : Nat) : clearIntervalOp [h] h = [] := by
  simp [clearIntervalOp]

lemma clearIntervalOp_length_le (a : List Nat) (h : Nat) :
    (clearIntervalOp a h).length ≤ a.length :=
  List.length_filter_le _ a

/-! ### Helper lemmas about single tick events -/

lemma TimerRt.tick_notMem (s : TimerRt) (h : Nat) (hna : h ∉ s.active) :
    s.tick h = s := by
  unfold TimerRt.tick
  simp [hna]

/-- Closed form for repeated ticks while the zero check never fires: the
interval stays active, the time drops by one per tick, the display tracks
it, and no callback is invoked. -/
lemma ticksN_no_zero (d0 : Dom) (s : TimerRt) (h : Nat) (j : Nat)
    (hact : s.active = [h]) (hid : s.timer.intervalId = some h)
    (hdom : s.dom = setInnerText d0 s.timer.id
      ("Time: " ++ toString s.timer.timeRemaining))
    (hnz : ∀ i : Nat, i < j → s.timer.timeRemaining - (i + 1) ≠ 0) :
    ticksN s h j =
      ⟨⟨s.timer.id, s.timer.initialTime,
          s.timer.timeRemaining - j, some h, s.timer.callback⟩,
        setInnerText d0 s.timer.id
          ("Time: " ++ toString (s.timer.timeRemaining - (j : Int))),
        [h], s.nextHandle, s.fired⟩ := by
  induction j with
  | zero =>
    obtain ⟨⟨tid, tinit, trem, tiid, tcb⟩, sdom, sact, snh, sf⟩ := s
    simp only [ticksN]
    simp_all
  | succ j ih =>
    have hj : ∀ i : Nat, i < j → s.timer.timeRemaining - (i + 1) ≠ 0 :=
      fun i hi => hnz i (Nat.lt_succ_of_lt hi)
    have hne : s.timer.timeRemaining - (j : Int) - 1 ≠ 0 := by
      have := hnz j (Nat.lt_succ_self j)
      push_cast at this ⊢
      omega
    have hcast : ((j + 1 : Nat) : Int) = (j : Int) + 1 := by
      push_cast
      ring
    show (ticksN s h j).tick h = _
    rw [ih hj]
    unfold TimerRt.tick
    rw [hcast, ← sub_sub]
    simp [hne, setInnerText_setInnerText]

/-- A countdown started with `n ≥ 1` remaining completes at the `n`-th
tick: the time reaches 0, the display shows it, the interval is cleared
(while `intervalId` keeps the stale handle), and the callback field's
value at that moment is logged exactly once. -/
lemma ticksN_completes (d0 : Dom) (s : TimerRt) (h : Nat) (n : Int)
    (hact : s.active = [h]) (hid : s.timer.intervalId = some h)
    (htime : s.timer.timeRemaining = n)
    (hdom : s.dom = setInnerText d0 s.timer.id
      ("Time: " ++ toString s.timer.timeRemaining))
    (hn : 1 ≤ n) :
    ticksN s h n.toNat =
      ⟨⟨s.timer.id, s.timer.initialTime, 0, some h, s.timer.callback⟩,
        setInnerText d0 s.timer.id ("Time: " ++ toString (0 : Int)),
        [], s.nextHandle, s.fired ++ cbLog s.timer.callback⟩ := by
  have hm : n.toNat = (n.toNat - 1) + 1 := by omega
  have hcast : ((n.toNat - 1 : Nat) : Int) = n - 1 := by omega
  have hmid := ticksN_no_zero d0 s h (n.toNat - 1) hact hid hdom
    (by
      intro i hi
      have : (i : Int) < n - 1 := by omega
      omega)
  have hz : s.timer.timeRemaining - ((n.toNat - 1 : Nat) : Int) - 1 = 0 := by
    rw [htime, hcast]
    ring
  rw [hm]
  show (ticksN s h (n.toNat - 1)).tick h = _
  rw [hmid]
  unfold TimerRt.tick
  simp [hz, setInnerText_setInnerText, clearIntervalOp_self]

/-- Once the interval is no longer active, further tick events change
nothing. -/
lemma ticksN_stable (s : TimerRt) (h : Nat) (m k : Nat)
    (hdone : (ticksN s h m).active = []) :
    ticksN s h (m + k) = ticksN s h m := by
  induction k with
  | zero => rfl
  | succ k ih =>
    show (ticksN s h (m + k)).tick h = _
    rw [ih, TimerRt.tick_notMem]
    rw [hdone]
    simp

/-! ### Construction inversion lemmas -/

lemma timerCreate_ok_inv (dom : Dom) (id : String) (n : Int) (t : TimerRt)
    (hc : Timer.create dom id n = Except.ok t) :
    (getElementById dom id).isSome = true ∧
      t = ⟨⟨id, n, n, none, none⟩,
        setInnerText dom id ("Time: " ++ toString n), [], 1, []⟩ := by
  unfold Timer.create TextComponent.create GameComponent.create at hc
  cases hmem : getElementById dom id with
  | none =>
    rw [hmem] at hc
    simp at hc
  | some e =>
    rw [hmem] at hc
    simp only [Except.ok.injEq] at hc
    exact ⟨rfl, hc.symm⟩

lemma scoreboardCreate_ok_inv (dom : Dom) (id : String) (init : Int)
    (sb : Scoreboard) (dom' : Dom)
    (hc : Scoreboard.create dom id init = Except.ok (sb, dom')) :
    (getElementById dom id).isSome = true ∧
      sb = ⟨id, init, init⟩ ∧
      dom' = setInnerText dom id ("Score: " ++ toString init) := by
  unfold Scoreboard.create TextComponent.create GameComponent.create at hc
  cases hmem : getElementById dom id with
  | none =>
    rw [hmem] at hc
    simp at hc
  | some e =>
    rw [hmem] at hc
    simp only [Except.ok.injEq, Prod.mk.injEq] at hc
    exact ⟨rfl, hc.1.symm, hc.2.symm⟩

/-- `startCountdown()` right after setting the callback on a freshly
constructed timer. -/
lemma startedOf_fresh (dom : Dom) (id : String) (n : Int) (cb : Nat) :
    startedOf ⟨⟨id, n, n, none, none⟩,
        setInnerText dom id ("Time: " ++ toString n), [], 1, []⟩ cb
      = ⟨⟨id, n, n, some 1, some cb⟩,
        setInnerText dom id ("Time: " ++ toString n), [1], 2, []⟩ := rfl

/-! ### Active-interval counting -/

lemma TimerRt.reset_active_length (s : TimerRt) :
    (TimerRt.reset s).active.length ≤ s.active.length := by
  unfold TimerRt.reset
  cases hiid : s.timer.intervalId with
  | none => simp
  | some h => simp [clearIntervalOp_length_le]

lemma TimerRt.tick_active_length (s : TimerRt) (h : Nat) :
    (TimerRt.tick s h).active.length ≤ s.active.length := by
  unfold TimerRt.tick
  by_cases hmem : h ∈ s.active
  · by_cases hz : s.timer.timeRemaining - 1 = 0
    · cases hiid : s.timer.intervalId with
      | none => simp [hmem, hz]
      | some hid => simp [hmem, hz, clearIntervalOp_length_le]
    · simp [hmem, hz]
  · simp [hmem]

/-! ### Scoreboard folding lemmas -/

lemma applyUpdates_fst (ds : List Int) (sb : Scoreboard) (dom : Dom) :
    (applyUpdates (sb, dom) ds).1
      = ⟨sb.id, sb.initialValue, sb.score + ds.sum⟩ := by
  induction ds generalizing sb dom with
  | nil =>
    obtain ⟨i, iv, sc⟩ := sb
    simp [applyUpdates]
  | cons d ds ih =>
    show (applyUpdates (sb.update dom d) ds).1 = _
    rw [Scoreboard.update, ih]
    simp [add_assoc]

lemma applyUpdates_display (ds : List Int) (sb : Scoreboard) (dom : Dom)
    (hdom : getElementById dom sb.id
      = some ("Score: " ++ toString sb.score)) :
    getElementById (applyUpdates (sb, dom) ds).2 sb.id
      = some ("Score: " ++ toString (sb.score + ds.sum)) := by
  induction ds generalizing sb dom with
  | nil => simpa using hdom
  | cons d ds ih =>
    show getElementById (applyUpdates (sb.update dom d) ds).2 sb.id = _
    rw [Scoreboard.update]
    have hnext := ih ⟨sb.id, sb.initialValue, sb.score + d⟩
      (setInnerText dom sb.id ("Score: " ++ toString (sb.score + d)))
      (by
        exact getElementById_setInnerText dom sb.id _
          (by rw [hdom]; rfl))
    simpa [add_assoc] using hnext

/-! ### Claim theorems -/

/-- C5: an identifier that does not resolve makes construction of every
component fail with the `HtmlElementNotFound` error carrying that
identifier (the spec's `ElementNotFound`), and the error value carries no
component and no mutated document, so no partial state is observable; an
identifier bound to an existing element makes every construction
succeed. -/
theorem C5_construction_failure (dom : Dom) (id : String) (init n : Int) :
    (getElementById dom id = none →
      GameComponent.create dom id = Except.error (htmlElementNotFound id) ∧
      TextComponent.create dom id = Except.error (htmlElementNotFound id) ∧
      Scoreboard.create dom id init
        = Except.error (htmlElementNotFound id) ∧
      Timer.create dom id n = Except.error (htmlElementNotFound id)) ∧
    ((getElementById dom id).isSome = true →
      (GameComponent.create dom id).isOk = true ∧
      (TextComponent.create dom id).isOk = true ∧
      (Scoreboard.create dom id init).isOk = true ∧
      (Timer.create dom id n).isOk = true) := by
  constructor
  · intro hnone
    unfold Timer.create Scoreboard.create TextComponent.create
      GameComponent.create
    rw [hnone]
    exact ⟨rfl, rfl, rfl, rfl⟩
  · intro hsome
    obtain ⟨e, he⟩ := Option.isSome_iff_exists.mp hsome
    unfold Timer.create Scoreboard.create TextComponent.create
      GameComponent.create
    rw [he]
    exact ⟨rfl, rfl, rfl, rfl⟩

theorem C5_witness :
    (getElementById demoDom "missing" = none) ∧
    (GameComponent.create demoDom "missing"
        = Except.error (htmlElementNotFound "missing") ∧
      TextComponent.create demoDom "missing"
        = Except.error (htmlElementNotFound "missing") ∧
      Scoreboard.create demoDom "missing" 0
        = Except.error (htmlElementNotFound "missing") ∧
      Timer.create demoDom "missing" 3
        = Except.error (htmlElementNotFound "missing")) ∧
    ((getElementById demoDom "score").isSome = true) ∧
    ((GameComponent.create demoDom "score").isOk = true ∧
      (TextComponent.create demoDom "score").isOk = true ∧
      (Scoreboard.create demoDom "score" 0).isOk = true ∧
      (Timer.create demoDom "score" 3).isOk = true) :=
  ⟨by decide, (C5_construction_failure demoDom "missing" 0 3).1 (by decide),
    by decide, (C5_construction_failure demoDom "score" 0 3).2 (by decide)⟩

/-- C6: on a successfully constructed scoreboard, folding `update` over any
list of integer deltas is total and yields `initial + sum`, independently
of the order of the deltas. -/
theorem C6_update_aggregate (dom dom' : Dom) (id : String) (init : Int)
    (sb : Scoreboard) (ds ds' : List Int)
    (hc : Scoreboard.create dom id init = Except.ok (sb, dom'))
    (hp : ds.Perm ds') :
    (applyUpdates (sb, dom') ds).1.score = init + ds.sum ∧
    (applyUpdates (sb, dom') ds).1.score
      = (applyUpdates (sb, dom') ds').1.score := by
  obtain ⟨hm, hsb, hd⟩ := scoreboardCreate_ok_inv dom id init sb dom' hc
  constructor
  · rw [applyUpdates_fst, hsb]
  · rw [applyUpdates_fst, applyUpdates_fst, hp.sum_eq]

theorem C6_witness :
    Scoreboard.create demoDom "score" 5
      = Except.ok (⟨"score", 5, 5⟩, setInnerText demoDom "score" "Score: 5") ∧
    List.Perm [(1 : Int), 2, -4] [2, -4, 1] ∧
    (applyUpdates (⟨"score", 5, 5⟩,
        setInnerText demoDom "score" "Score: 5") [(1 : Int), 2, -4]).1.score
      = 5 + [(1 : Int), 2, -4].sum ∧
    (applyUpdates (⟨"score", 5, 5⟩,
        setInnerText demoDom "score" "Score: 5") [(1 : Int), 2, -4]).1.score
      = (applyUpdates (⟨"score", 5, 5⟩,
          setInnerText demoDom "score" "Score: 5") [2, -4, 1]).1.score :=
  ⟨by decide, by decide,
    C6_update_aggregate demoDom (setInnerText demoDom "score" "Score: 5")
      "score" 5 ⟨"score", 5, 5⟩ [(1 : Int), 2, -4] [2, -4, 1]
      (by decide) (by decide)⟩

/-- C7: after any sequence of updates on a successfully constructed
scoreboard the display reads `"Score: " ++ current score` (so the display
invariant holds after every mutation), and `reset()` restores both the
score and the display to the initial value captured at construction. -/
theorem C7_reset_restores (dom dom' : Dom) (id : String) (init : Int)
    (sb : Scoreboard) (ds : List Int)
    (hc : Scoreboard.create dom id init = Except.ok (sb, dom')) :
    getElementById (applyUpdates (sb, dom') ds).2 id
      = some ("Score: " ++ toString (init + ds.sum)) ∧
    ((applyUpdates (sb, dom') ds).1.resetOp
        (applyUpdates (sb, dom') ds).2).1.score = init ∧
    getElementById ((applyUpdates (sb, dom') ds).1.resetOp
        (applyUpdates (sb, dom') ds).2).2 id
      = some ("Score: " ++ toString init) := by
  obtain ⟨hm, hsb, hd⟩ := scoreboardCreate_ok_inv dom id init sb dom' hc
  subst hsb
  subst hd
  have h1 := applyUpdates_display ds ⟨id, init, init⟩
    (setInnerText dom id ("Score: " ++ toString init))
    (getElementById_setInnerText dom id _ hm)
  refine ⟨h1, ?_, ?_⟩
  · simp [Scoreboard.resetOp, applyUpdates_fst]
  · have hm2 : (getElementById (applyUpdates
        (⟨id, init, init⟩, setInnerText dom id
          ("Score: " ++ toString init)) ds).2 id).isSome = true := by
      have h1' : getElementById (applyUpdates
          (⟨id, init, init⟩, setInnerText dom id
            ("Score: " ++ toString init)) ds).2 id
          = some ("Score: " ++ toString (init + ds.sum)) := h1
      rw [h1']
      rfl
    have hfin := getElementById_setInnerText
      (applyUpdates (⟨id, init, init⟩, setInnerText dom id
        ("Score: " ++ toString init)) ds).2 id
      ("Score: " ++ toString init) hm2
    simpa [Scoreboard.resetOp, applyUpdates_fst] using hfin

theorem C7_witness :
    Scoreboard.create demoDom "score" 5
      = Except.ok (⟨"score", 5, 5⟩, setInnerText demoDom "score" "Score: 5") ∧
    getElementById (applyUpdates (⟨"score", 5, 5⟩,
        setInnerText demoDom "score" "Score: 5") [(1 : Int), 2]).2 "score"
      = some ("Score: " ++ toString ((5 : Int) + [(1 : Int), 2].sum)) ∧
    ((applyUpdates (⟨"score", 5, 5⟩,
        setInnerText demoDom "score" "Score: 5") [(1 : Int), 2]).1.resetOp
        (applyUpdates (⟨"score", 5, 5⟩,
          setInnerText demoDom "score" "Score: 5") [(1 : Int), 2]).2).1.score
      = 5 ∧
    getElementById ((applyUpdates (⟨"score", 5, 5⟩,
        setInnerText demoDom "score" "Score: 5") [(1 : Int), 2]).1.resetOp
        (applyUpdates (⟨"score", 5, 5⟩,
          setInnerText demoDom "score" "Score: 5") [(1 : Int), 2]).2).2 "score"
      = some ("Score: " ++ toString (5 : Int)) :=
  ⟨by decide,
    C7_reset_restores demoDom (setInnerText demoDom "score" "Score: 5")
      "score" 5 ⟨"score", 5, 5⟩ [(1 : Int), 2] (by decide)⟩

/-- C8: for an identifier bound to an existing element, a scoreboard with
the default initial value 0 constructs successfully and immediately
displays `"Score: 0"`, and a timer of duration `n` constructs successfully
and immediately displays `"Time: " ++ n`. -/
theorem C8_initial_render (dom : Dom) (id : String) (n : Int)
    (hm : (getElementById dom id).isSome = true) :
    Scoreboard.create dom id 0
      = Except.ok (⟨id, 0, 0⟩, setInnerText dom id "Score: 0") ∧
    getElementById (setInnerText dom id "Score: 0") id
      = some "Score: 0" ∧
    Timer.create dom id n
      = Except.ok ⟨⟨id, n, n, none, none⟩,
          setInnerText dom id ("Time: " ++ toString n), [], 1, []⟩ ∧
    getElementById (setInnerText dom id ("Time: " ++ toString n)) id
      = some ("Time: " ++ toString n) := by
  obtain ⟨e, he⟩ := Option.isSome_iff_exists.mp hm
  refine ⟨?_, getElementById_setInnerText dom id _ hm, ?_,
    getElementById_setInnerText dom id _ hm⟩
  · unfold Scoreboard.create TextComponent.create GameComponent.create
    rw [he]
    rfl
  · unfold Timer.create TextComponent.create GameComponent.create
    rw [he]

theorem C8_witness :
    (getElementById demoDom "score").isSome = true ∧
    (Scoreboard.create demoDom "score" 0
        = Except.ok (⟨"score", 0, 0⟩,
            setInnerText demoDom "score" "Score: 0") ∧
      getElementById (setInnerText demoDom "score" "Score: 0") "score"
        = some "Score: 0" ∧
      Timer.create demoDom "score" 3
        = Except.ok ⟨⟨"score", 3, 3, none, none⟩,
            setInnerText demoDom "score" ("Time: " ++ toString (3 : Int)),
            [], 1, []⟩ ∧
      getElementById
          (setInnerText demoDom "score" ("Time: " ++ toString (3 : Int)))
          "score"
        = some ("Time: " ++ toString (3 : Int))) :=
  ⟨by decide, C8_initial_render demoDom "score" 3 (by decide)⟩

/-- C1: on a started countdown of duration `n ≥ 1` with completion callback
`cb`, after `j < n` ticks the remaining time is `n - j` and the display
reads `"Time: " ++ (n - j)` with the interval still active and no callback
fired; at the `n`-th tick the time reaches 0, the display reads
`"Time: 0"`, the interval is cancelled, the callback has fired exactly
once (the log is `[cb]`; in the embedded tick body, as in the source, the
`clearInterval` precedes the invocation), and any `k` further tick events
leave the state unchanged. -/
theorem C1_countdown_ticks (dom : Dom) (id : String) (n : Int)
    (cb : Nat) (j k : Nat) (t : TimerRt)
    (hc : Timer.create dom id n = Except.ok t)
    (hn : 1 ≤ n) (hj : (j : Int) < n) :
    (ticksN (startedOf t cb) 1 j).timer.timeRemaining = n - j ∧
    getElementById (ticksN (startedOf t cb) 1 j).dom id
      = some ("Time: " ++ toString (n - (j : Int))) ∧
    (ticksN (startedOf t cb) 1 j).fired = [] ∧
    (ticksN (startedOf t cb) 1 j).active = [1] ∧
    (ticksN (startedOf t cb) 1 n.toNat).timer.timeRemaining = 0 ∧
    getElementById (ticksN (startedOf t cb) 1 n.toNat).dom id
      = some ("Time: " ++ toString (0 : Int)) ∧
    (ticksN (startedOf t cb) 1 n.toNat).fired = [cb] ∧
    (ticksN (startedOf t cb) 1 n.toNat).active = [] ∧
    ticksN (startedOf t cb) 1 (n.toNat + k)
      = ticksN (startedOf t cb) 1 n.toNat := by
  obtain ⟨hmem, ht⟩ := timerCreate_ok_inv dom id n t hc
  subst ht
  rw [startedOf_fresh]
  have hmid := ticksN_no_zero dom
    ⟨⟨id, n, n, some 1, some cb⟩,
      setInnerText dom id ("Time: " ++ toString n), [1], 2, []⟩
    1 j rfl rfl rfl
    (by
      intro i hi
      show n - ((i : Int) + 1) ≠ 0
      have : (i : Int) < (j : Int) := by exact_mod_cast hi
      omega)
  have hend := ticksN_completes dom
    ⟨⟨id, n, n, some 1, some cb⟩,
      setInnerText dom id ("Time: " ++ toString n), [1], 2, []⟩
    1 n rfl rfl rfl rfl hn
  have hstab := ticksN_stable
    ⟨⟨id, n, n, some 1, some cb⟩,
      setInnerText dom id ("Time: " ++ toString n), [1], 2, []⟩
    1 n.toNat k (by rw [hend])
  refine ⟨?_, ?_, ?_, ?_, ?_, ?_, ?_, ?_, hstab⟩
  · rw [hmid]
  · rw [hmid]
    exact getElementById_setInnerText dom id _ hmem
  · rw [hmid]
  · rw [hmid]
  · rw [hend]
  · rw [hend]
    exact getElementById_setInnerText dom id _ hmem
  · rw [hend]
    rfl
  · rw [hend]

theorem C1_witness :
    Timer.create demoDom "timer" 3 = Except.ok demoTimer3 ∧
    (1 : Int) ≤ 3 ∧ ((1 : Nat) : Int) < 3 ∧
    ((ticksN (startedOf demoTimer3 7) 1 1).timer.timeRemaining
        = 3 - (1 : Nat) ∧
      getElementById (ticksN (startedOf demoTimer3 7) 1 1).dom "timer"
        = some ("Time: " ++ toString ((3 : Int) - ((1 : Nat) : Int))) ∧
      (ticksN (startedOf demoTimer3 7) 1 1).fired = [] ∧
      (ticksN (startedOf demoTimer3 7) 1 1).active = [1] ∧
      (ticksN (startedOf demoTimer3 7) 1 (3 : Int).toNat).timer.timeRemaining
        = 0 ∧
      getElementById
          (ticksN (startedOf demoTimer3 7) 1 (3 : Int).toNat).dom "timer"
        = some ("Time: " ++ toString (0 : Int)) ∧
      (ticksN (startedOf demoTimer3 7) 1 (3 : Int).toNat).fired = [7] ∧
      (ticksN (startedOf demoTimer3 7) 1 (3 : Int).toNat).active = [] ∧
      ticksN (startedOf demoTimer3 7) 1 ((3 : Int).toNat + 2)
        = ticksN (startedOf demoTimer3 7) 1 (3 : Int).toNat) :=
  ⟨by decide, by norm_num, by norm_num,
    C1_countdown_ticks demoDom "timer" 3 7 1 2 demoTimer3 (by decide)
      (by norm_num) (by norm_num)⟩

/-- C3: a timer constructed with duration 0 and started never hits the
strict `=== 0` check: the `k+1`-st tick leaves `-(k+1)` remaining and the
display reading `"Time: " ++ -(k+1)` (so `"Time: -1"` after the first
tick), the interval is never cancelled and the callback, although set,
never fires. -/
theorem C3_zero_duration (k cb : Nat) :
    Timer.create demoDom "timer" 0 = Except.ok demoTimer0 ∧
    (ticksN (startedOf demoTimer0 cb) 1 (k + 1)).timer.timeRemaining
      = -((k : Int) + 1) ∧
    getElementById (ticksN (startedOf demoTimer0 cb) 1 (k + 1)).dom "timer"
      = some ("Time: " ++ toString (-((k : Int) + 1))) ∧
    (ticksN (startedOf demoTimer0 cb) 1 (k + 1)).active = [1] ∧
    (ticksN (startedOf demoTimer0 cb) 1 (k + 1)).fired = [] := by
  have hzero : startedOf demoTimer0 cb
      = ⟨⟨"timer", 0, 0, some 1, some cb⟩,
          setInnerText demoDom "timer" ("Time: " ++ toString (0 : Int)),
          [1], 2, []⟩ := rfl
  have hmid := ticksN_no_zero demoDom
    ⟨⟨"timer", 0, 0, some 1, some cb⟩,
      setInnerText demoDom "timer" ("Time: " ++ toString (0 : Int)),
      [1], 2, []⟩
    1 (k + 1) rfl rfl rfl
    (by
      intro i hi
      show (0 : Int) - ((i : Int) + 1) ≠ 0
      omega)
  have hneg : (0 : Int) - ((k + 1 : Nat) : Int) = -((k : Int) + 1) := by
    push_cast
    ring
  rw [hzero, hmid, hneg]
  refine ⟨by decide, rfl, ?_, rfl, rfl⟩
  exact getElementById_setInnerText demoDom "timer" _ (by decide)

/-- C10: after a countdown of duration `n ≥ 1` completes by itself, the
stored `intervalId` still holds the stale handle while no interval is
active; `reset()` nonetheless runs without error: its truthiness guard
passes, `clearInterval` on the already-cleared handle is a no-op, the
remaining time is restored to the initial duration, and the display is
re-rendered. -/
theorem C10_reset_after_completion (dom : Dom) (id : String) (n : Int)
    (cb : Nat) (t : TimerRt)
    (hc : Timer.create dom id n = Except.ok t) (hn : 1 ≤ n) :
    (ticksN (startedOf t cb) 1 n.toNat).timer.intervalId = some 1 ∧
    (ticksN (startedOf t cb) 1 n.toNat).active = [] ∧
    TimerRt.reset (ticksN (startedOf t cb) 1 n.toNat)
      = ⟨⟨id, n, n, some 1, some cb⟩,
          setInnerText dom id ("Time: " ++ toString n), [], 2, [cb]⟩ := by
  obtain ⟨hmem, ht⟩ := timerCreate_ok_inv dom id n t hc
  subst ht
  rw [startedOf_fresh]
  have hend := ticksN_completes dom
    ⟨⟨id, n, n, some 1, some cb⟩,
      setInnerText dom id ("Time: " ++ toString n), [1], 2, []⟩
    1 n rfl rfl rfl rfl hn
  rw [hend]
  refine ⟨rfl, rfl, ?_⟩
  unfold TimerRt.reset
  simp [clearIntervalOp, setInnerText_setInnerText, cbLog]

theorem C10_witness :
    Timer.create demoDom "timer" 3 = Except.ok demoTimer3 ∧
    (1 : Int) ≤ 3 ∧
    ((ticksN (startedOf demoTimer3 7) 1 (3 : Int).toNat).timer.intervalId
        = some 1 ∧
      (ticksN (startedOf demoTimer3 7) 1 (3 : Int).toNat).active = [] ∧
      TimerRt.reset (ticksN (startedOf demoTimer3 7) 1 (3 : Int).toNat)
        = ⟨⟨"timer", 3, 3, some 1, some 7⟩,
            setInnerText demoDom "timer" ("Time: " ++ toString (3 : Int)),
            [], 2, [7]⟩) :=
  ⟨by decide, by norm_num,
    C10_reset_after_completion demoDom "timer" 3 7 demoTimer3 (by decide)
      (by norm_num)⟩

/-- C2 (counterexample): calling `startCountdown()` twice on a freshly
constructed timer leaves two overlapping active intervals, so "at most one
active periodic tick for every sequence of operations" is false as
stated. -/
theorem C2_counterexample :
    Timer.create demoDom "timer" 3 = Except.ok demoTimer3 ∧
    ¬ ((demoTimer3.run [TimerOp.start, TimerOp.start]).active.length
        ≤ 1) := by
  decide

/-- C2 (amended): along any event sequence in which `startCountdown()` is
only invoked while no interval is active, a timer instance that starts
with at most one active interval keeps at most one active interval. -/
theorem C2_single_interval (s : TimerRt) (ops : List TimerOp)
    (h0 : s.active.length ≤ 1) (hg : s.goodTrace ops = true) :
    (s.run ops).active.length ≤ 1 := by
  induction ops generalizing s with
  | nil => exact h0
  | cons op rest ih =>
    show ((s.step op).run rest).active.length ≤ 1
    cases op with
    | start =>
      have hg' : s.active.isEmpty = true
          ∧ (s.step TimerOp.start).goodTrace rest = true := by
        simpa [TimerRt.goodTrace] using hg
      refine ih _ ?_ hg'.2
      have he : s.active = [] := List.isEmpty_iff.mp hg'.1
      show s.startCountdown.active.length ≤ 1
      simp [TimerRt.startCountdown, he]
    | resetEvt =>
      have hg' : (s.step TimerOp.resetEvt).goodTrace rest = true := by
        simpa [TimerRt.goodTrace] using hg
      exact ih _ (le_trans (TimerRt.reset_active_length s) h0) hg'
    | tickEvt h =>
      have hg' : (s.step (TimerOp.tickEvt h)).goodTrace rest = true := by
        simpa [TimerRt.goodTrace] using hg
      exact ih _ (le_trans (TimerRt.tick_active_length s h) h0) hg'
    | setCb c =>
      have hg' : (s.step (TimerOp.setCb c)).goodTrace rest = true := by
        simpa [TimerRt.goodTrace] using hg
      exact ih _ h0 hg'

theorem C2_witness :
    demoTimer3.active.length ≤ 1 ∧
    demoTimer3.goodTrace [TimerOp.setCb (some 7), TimerOp.start,
      TimerOp.tickEvt 1, TimerOp.resetEvt, TimerOp.start] = true ∧
    (demoTimer3.run [TimerOp.setCb (some 7), TimerOp.start,
      TimerOp.tickEvt 1, TimerOp.resetEvt,
      TimerOp.start]).active.length ≤ 1 :=
  ⟨by decide, by decide,
    C2_single_interval demoTimer3 [TimerOp.setCb (some 7), TimerOp.start,
      TimerOp.tickEvt 1, TimerOp.resetEvt, TimerOp.start]
      (by decide) (by decide)⟩

/-- C4: from any instance state whose active interval, if one exists, is
the stored handle, `reset()` (a total operation — it cannot throw, also
from Idle) restores the remaining time to the initial duration, leaves the
callback field untouched, cancels any active interval so that no pending
tick event has any effect afterwards, re-renders the display with the
initial duration, and a subsequent `startCountdown()` runs a complete
fresh countdown that ends at 0 with the interval cancelled, the display at
`"Time: 0"` and the callback fired once. -/
theorem C4_reset_behaviour (s : TimerRt) (h2 : Nat)
    (hsub : ∀ a ∈ s.active, s.timer.intervalId = some a)
    (hmem : (getElementById s.dom s.timer.id).isSome = true)
    (hpos : 1 ≤ s.timer.initialTime) :
    (TimerRt.reset s).timer.timeRemaining = s.timer.initialTime ∧
    (TimerRt.reset s).timer.callback = s.timer.callback ∧
    (TimerRt.reset s).active = [] ∧
    TimerRt.tick (TimerRt.reset s) h2 = TimerRt.reset s ∧
    getElementById (TimerRt.reset s).dom s.timer.id
      = some ("Time: " ++ toString s.timer.initialTime) ∧
    (ticksN (TimerRt.startCountdown (TimerRt.reset s)) s.nextHandle
        s.timer.initialTime.toNat).timer.timeRemaining = 0 ∧
    getElementById (ticksN (TimerRt.startCountdown (TimerRt.reset s))
        s.nextHandle s.timer.initialTime.toNat).dom s.timer.id
      = some ("Time: " ++ toString (0 : Int)) ∧
    (ticksN (TimerRt.startCountdown (TimerRt.reset s)) s.nextHandle
        s.timer.initialTime.toNat).fired
      = s.fired ++ cbLog s.timer.callback ∧
    (ticksN (TimerRt.startCountdown (TimerRt.reset s)) s.nextHandle
        s.timer.initialTime.toNat).active = [] := by
  have hre : (TimerRt.reset s).active = [] := by
    show (match s.timer.intervalId with
      | none => s.active
      | some h => clearIntervalOp s.active h) = []
    cases hiid : s.timer.intervalId with
    | none =>
      cases ha : s.active with
      | nil => rfl
      | cons a as =>
        have := hsub a (by rw [ha]; exact List.mem_cons_self a as)
        rw [hiid] at this
        cases this
    | some hh =>
      rw [List.eq_nil_iff_forall_not_mem]
      intro a hamem
      have hmf := List.mem_filter.mp hamem
      have hne : a ≠ hh := by simpa using hmf.2
      have := hsub a hmf.1
      rw [hiid] at this
      exact hne (Option.some.inj this).symm
  have hr : TimerRt.startCountdown (TimerRt.reset s)
      = ⟨⟨s.timer.id, s.timer.initialTime, s.timer.initialTime,
            some s.nextHandle, s.timer.callback⟩,
          setInnerText s.dom s.timer.id
            ("Time: " ++ toString s.timer.initialTime),
          [s.nextHandle], s.nextHandle + 1, s.fired⟩ := by
    unfold TimerRt.startCountdown
    rw [hre]
    rfl
  have hend := ticksN_completes s.dom
    ⟨⟨s.timer.id, s.timer.initialTime, s.timer.initialTime,
        some s.nextHandle, s.timer.callback⟩,
      setInnerText s.dom s.timer.id
        ("Time: " ++ toString s.timer.initialTime),
      [s.nextHandle], s.nextHandle + 1, s.fired⟩
    s.nextHandle s.timer.initialTime rfl rfl rfl rfl hpos
  refine ⟨rfl, rfl, hre,
    TimerRt.tick_notMem (TimerRt.reset s) h2 (by rw [hre]; simp), ?_,
    ?_, ?_, ?_, ?_⟩
  · exact getElementById_setInnerText s.dom s.timer.id _ hmem
  · rw [hr, hend]
  · rw [hr, hend]
    exact getElementById_setInnerText s.dom s.timer.id _ hmem
  · rw [hr, hend]
  · rw [hr, hend]

/-- The state of `demoTimer3` mid-countdown: callback set to 7, countdown
started and one tick elapsed. -/
def demoMid : TimerRt := ticksN (startedOf demoTimer3 7) 1 1

theorem C4_witness :
    (∀ a ∈ demoMid.active, demoMid.timer.intervalId = some a) ∧
    (getElementById demoMid.dom demoMid.timer.id).isSome = true ∧
    1 ≤ demoMid.timer.initialTime ∧
    ((TimerRt.reset demoMid).timer.timeRemaining
        = demoMid.timer.initialTime ∧
      (TimerRt.reset demoMid).timer.callback = demoMid.timer.callback ∧
      (TimerRt.reset demoMid).active = [] ∧
      TimerRt.tick (TimerRt.reset demoMid) 1 = TimerRt.reset demoMid ∧
      getElementById (TimerRt.reset demoMid).dom demoMid.timer.id
        = some ("Time: " ++ toString demoMid.timer.initialTime) ∧
      (ticksN (TimerRt.startCountdown (TimerRt.reset demoMid))
          demoMid.nextHandle
          demoMid.timer.initialTime.toNat).timer.timeRemaining = 0 ∧
      getElementById (ticksN (TimerRt.startCountdown
          (TimerRt.reset demoMid)) demoMid.nextHandle
          demoMid.timer.initialTime.toNat).dom demoMid.timer.id
        = some ("Time: " ++ toString (0 : Int)) ∧
      (ticksN (TimerRt.startCountdown (TimerRt.reset demoMid))
          demoMid.nextHandle demoMid.timer.initialTime.toNat).fired
        = demoMid.fired ++ cbLog demoMid.timer.callback ∧
      (ticksN (TimerRt.startCountdown (TimerRt.reset demoMid))
          demoMid.nextHandle demoMid.timer.initialTime.toNat).active
        = []) :=
  ⟨by decide, by decide, by decide,
    C4_reset_behaviour demoMid 1 (by decide) (by decide) (by decide)⟩

/-- C9: the callback invoked at the zero tick is the value of the public
`countdownTimerEndCallback` field at that moment: the field starts as
`null` on construction; reassigning it mid-countdown (after `n - 1` of `n`
ticks) makes the newly assigned function the one that fires; and a `null`
field at the zero tick means nothing is invoked. -/
theorem C9_callback_field (dom : Dom) (id : String) (n : Int)
    (cb1 cb2 : Nat) (t : TimerRt)
    (hc : Timer.create dom id n = Except.ok t) (hn : 1 ≤ n) :
    t.timer.callback = none ∧
    (ticksN (TimerRt.setCallback
        (ticksN (startedOf t cb1) 1 (n.toNat - 1)) (some cb2)) 1 1).fired
      = [cb2] ∧
    (ticksN (TimerRt.setCallback
        (ticksN (startedOf t cb1) 1 (n.toNat - 1)) none) 1 1).fired
      = [] := by
  obtain ⟨hmem, ht⟩ := timerCreate_ok_inv dom id n t hc
  subst ht
  have hs : startedOf ⟨⟨id, n, n, none, none⟩,
      setInnerText dom id ("Time: " ++ toString n), [], 1, []⟩ cb1
      = ⟨⟨id, n, n, some 1, some cb1⟩,
          setInnerText dom id ("Time: " ++ toString n), [1], 2, []⟩ :=
    startedOf_fresh dom id n cb1
  have hmid := ticksN_no_zero dom
    ⟨⟨id, n, n, some 1, some cb1⟩,
      setInnerText dom id ("Time: " ++ toString n), [1], 2, []⟩
    1 (n.toNat - 1) rfl rfl rfl
    (by
      intro i hi
      show n - ((i : Int) + 1) ≠ 0
      omega)
  dsimp only at hmid
  rw [show n - ((n.toNat - 1 : Nat) : Int) = 1 from by omega] at hmid
  have hfin2 := ticksN_completes dom
    ⟨⟨id, n, 1, some 1, some cb2⟩,
      setInnerText dom id ("Time: " ++ toString (1 : Int)), [1], 2, []⟩
    1 1 rfl rfl rfl rfl le_rfl
  have hfin0 := ticksN_completes dom
    ⟨⟨id, n, 1, some 1, none⟩,
      setInnerText dom id ("Time: " ++ toString (1 : Int)), [1], 2, []⟩
    1 1 rfl rfl rfl rfl le_rfl
  refine ⟨rfl, ?_, ?_⟩
  · rw [hs, hmid]
    rw [show TimerRt.setCallback
        ⟨⟨id, n, 1, some 1, some cb1⟩,
          setInnerText dom id ("Time: " ++ toString (1 : Int)), [1], 2, []⟩
        (some cb2)
        = ⟨⟨id, n, 1, some 1, some cb2⟩,
            setInnerText dom id ("Time: " ++ toString (1 : Int)),
            [1], 2, []⟩ from rfl]
    show (ticksN _ 1 (1 : Int).toNat).fired = [cb2]
    rw [hfin2]
    rfl
  · rw [hs, hmid]
    rw [show TimerRt.setCallback
        ⟨⟨id, n, 1, some 1, some cb1⟩,
          setInnerText dom id ("Time: " ++ toString (1 : Int)), [1], 2, []⟩
        none
        = ⟨⟨id, n, 1, some 1, none⟩,
            setInnerText dom id ("Time: " ++ toString (1 : Int)),
            [1], 2, []⟩ from rfl]
    show (ticksN _ 1 (1 : Int).toNat).fired = []
    rw [hfin0]
    rfl

theorem C9_witness :
    Timer.create demoDom "timer" 3 = Except.ok demoTimer3 ∧
    (1 : Int) ≤ 3 ∧
    (demoTimer3.timer.callback = none ∧
      (ticksN (TimerRt.setCallback
          (ticksN (startedOf demoTimer3 5) 1 ((3 : Int).toNat - 1))
          (some 9)) 1 1).fired = [9] ∧
      (ticksN (TimerRt.setCallback
          (ticksN (startedOf demoTimer3 5) 1 ((3 : Int).toNat - 1))
          none) 1 1).fired = []) :=
  ⟨by decide, by norm_num,
    C9_callback_field demoDom "timer" 3 5 9 demoTimer3 (by decide)
      (by norm_num)⟩
